import Mathlib

/-!
Verification of the qibullet `SimulationManager` glue layer
(`qibullet/simulation_manager.py`).

The manager issues configuration calls to an external physics engine
(pybullet) and to a robot-model loader (`PepperVirtual.loadRobot`), both out
of scope of this repository.  We embed each manager operation as a function
producing the list of external calls it issues (its trace) together with its
Python-level outcome (`Except PyErr`): Python exceptions raised by an
external call are `Except.error` values, and the absence of a `try` block in
a function means errors returned by an oracle are propagated in the result.
The external collaborators are modelled as oracles (`Engine`): we quantify
over their possible answers instead of fixing an engine implementation.
-/

/-- Python-level exceptions that can be raised by the external calls. -/
inductive PyErr where
  | zeroDivisionError
  | valueError
  | exception (msg : String)
  deriving DecidableEq, Repr

/-- Connection mode passed to `pybullet.connect`: `pybullet.GUI` or
`pybullet.DIRECT`. -/
inductive Mode where
  | GUI
  | DIRECT
  deriving DecidableEq, Repr

/-- The three debug-preview kinds disabled in GUI mode:
`COV_ENABLE_RGB_BUFFER_PREVIEW`, `COV_ENABLE_DEPTH_BUFFER_PREVIEW`,
`COV_ENABLE_SEGMENTATION_MARK_PREVIEW`. -/
inductive CovFlag where
  | RGB
  | DEPTH
  | SEGMENTATION
  deriving DecidableEq, Repr

/-- One external call issued by the manager (to pybullet, to `time.sleep`,
or to `threading.Thread(...).start()`).  Real-valued arguments are modelled
as rationals. -/
inductive Call where
  | connect (mode : Mode)
  | setRealTimeSimulation (v : ℤ) (client : ℤ)
  | configureDebugVisualizer (flag : CovFlag) (v : ℤ) (client : ℤ)
  | setGravity (x y z : ℚ) (client : ℤ)
  | resetSimulation (client : ℤ)
  | disconnect (client : ℤ)
  | setAdditionalSearchPath (path : String)
  | loadMJCF (file : String) (client : ℤ)
  | loadRobot (translation : List ℚ) (quaternion : List ℚ) (client : ℤ)
  | stepSimulation (client : ℤ)
  | sleep (duration : ℚ)
  | startThread (client : ℤ) (frequency_multiplier : ℚ)
  deriving DecidableEq, Repr

/-- The `PepperVirtual` robot object returned by `spawnPepper`; its contents
are produced by the external robot-model loader, so it is opaque here. -/
structure PepperVirtual where
  robotId : ℕ
  deriving DecidableEq, Repr

/-- Oracle for the external collaborators: the answer the physics engine
gives to `connect`, to each unit-returning engine call, and the robot object
the robot-model loader produces (or the exception either raises).
`dataPath` models `pybullet_data.getDataPath()`. -/
structure Engine where
  connectRes : Mode → Except PyErr ℤ
  callRes : Call → Except PyErr Unit
  loadRobotRes : List ℚ → List ℚ → ℤ → Except PyErr PepperVirtual
  dataPath : String

/-- The `SimulationManager` object.  Its Python constructor is `pass`
(`__init__` at simulation_manager.py:16-20), so the structure has no
fields. -/
structure SimulationManager where
  deriving DecidableEq, Repr

/-- Issue call `c` after trace `tr`: on an engine exception the error
propagates (no `try` in the foreground operations), otherwise continue. -/
def bindCall {α : Type} (eng : Engine) (tr : List Call) (c : Call)
    (k : List Call → List Call × Except PyErr α) : List Call × Except PyErr α :=
  match eng.callRes c with
  | Except.error e => (tr ++ [c], Except.error e)
  | Except.ok _ => k (tr ++ [c])

/-- Embedding of `SimulationManager.launchSimulation`
(simulation_manager.py:22-59).  GUI branch: connect in `GUI` mode, enable
real-time stepping, disable the three debug previews.  Headless branch:
connect in `DIRECT` mode, start the background stepping thread bound to the
new client and to `frequency_multiplier`.  Both branches then set gravity to
(0, 0, -9.81) scoped to the new client and return the client id. -/
def launchSimulation (_self : SimulationManager) (eng : Engine)
    (gui : Bool := true) (frequency_multiplier : ℚ := 1) :
    List Call × Except PyErr ℤ :=
  if gui then
    match eng.connectRes Mode.GUI with
    | Except.error e => ([Call.connect Mode.GUI], Except.error e)
    | Except.ok physics_client =>
      bindCall eng [Call.connect Mode.GUI]
        (Call.setRealTimeSimulation 1 physics_client) fun tr =>
      bindCall eng tr
        (Call.configureDebugVisualizer CovFlag.RGB 0 physics_client) fun tr =>
      bindCall eng tr
        (Call.configureDebugVisualizer CovFlag.DEPTH 0 physics_client) fun tr =>
      bindCall eng tr
        (Call.configureDebugVisualizer CovFlag.SEGMENTATION 0 physics_client) fun tr =>
      bindCall eng tr
        (Call.setGravity 0 0 (-981/100) physics_client) fun tr =>
      (tr, Except.ok physics_client)
  else
    match eng.connectRes Mode.DIRECT with
    | Except.error e => ([Call.connect Mode.DIRECT], Except.error e)
    | Except.ok physics_client =>
      bindCall eng [Call.connect Mode.DIRECT]
        (Call.startThread physics_client frequency_multiplier) fun tr =>
      bindCall eng tr
        (Call.setGravity 0 0 (-981/100) physics_client) fun tr =>
      (tr, Except.ok physics_client)

/-- Embedding of `SimulationManager.resetSimulation`
(simulation_manager.py:61-67): a single `pybullet.resetSimulation` call whose
outcome (success, or a propagated engine exception) is the operation's
outcome. -/
def resetSimulation (_self : SimulationManager) (eng : Engine)
    (physics_client : ℤ) : List Call × Except PyErr Unit :=
  ([Call.resetSimulation physics_client],
    eng.callRes (Call.resetSimulation physics_client))

/-- Embedding of `SimulationManager.stopSimulation`
(simulation_manager.py:69-76): a single `pybullet.disconnect` call whose
outcome is the operation's outcome. -/
def stopSimulation (_self : SimulationManager) (eng : Engine)
    (physics_client : ℤ) : List Call × Except PyErr Unit :=
  ([Call.disconnect physics_client],
    eng.callRes (Call.disconnect physics_client))

/-- Embedding of `SimulationManager.spawnPepper`
(simulation_manager.py:78-113).  If `spawn_ground_plane` is true, first set
the bundled data search path and load `mjcf/ground_plane.xml` into the
client; then delegate to the robot-model loader with exactly `translation`,
`quaternion` and the client id, returning the loader's robot object or
propagating its exception. -/
def spawnPepper (_self : SimulationManager) (eng : Engine)
    (physics_client : ℤ) (translation quaternion : List ℚ)
    (spawn_ground_plane : Bool := false) :
    List Call × Except PyErr PepperVirtual :=
  let rest := fun (tr : List Call) =>
    (tr ++ [Call.loadRobot translation quaternion physics_client],
      eng.loadRobotRes translation quaternion physics_client)
  if spawn_ground_plane then
    bindCall eng [] (Call.setAdditionalSearchPath eng.dataPath) fun tr =>
    bindCall eng tr (Call.loadMJCF "mjcf/ground_plane.xml" physics_client) fun tr =>
    rest tr
  else
    rest []

/-- The computation `1./(240.*frequency_multiplier)` performed by
`_stepSimulation` before each `time.sleep`: a zero multiplier raises Python's
`ZeroDivisionError`. -/
def sleepInterval (m : ℚ) : Except PyErr ℚ :=
  if 240 * m = 0 then Except.error PyErr.zeroDivisionError
  else Except.ok (1 / (240 * m))

/-- Behaviour of the external `time.sleep`: a negative duration raises
`ValueError`, otherwise the call returns. -/
def sleepRes (d : ℚ) : Except PyErr Unit :=
  if d < 0 then Except.error PyErr.valueError else Except.ok ()

/-- Outcome of the `while True` loop body of `_stepSimulation` under a fuel
bound: either the fuel ran out with the loop still live (the loop itself has
no normal exit), or an exception was raised by an iteration. -/
inductive LoopOutcome where
  | outOfFuel
  | raised (e : PyErr)
  deriving DecidableEq, Repr

/-- The `while True` loop of `_stepSimulation` (simulation_manager.py:134-136),
inside the `try`.  `stepRes i` is the engine's answer to the i-th
`pybullet.stepSimulation` call issued by this task (the engine is external;
its answers over time are an oracle).  Each iteration issues one step call
for `client`; on success it computes `1/(240*m)` and issues one `time.sleep`
call; any raised exception ends the loop.  `fuel` bounds how many iterations
we observe. -/
def stepLoopAux (stepRes : ℕ → Except PyErr Unit) (client : ℤ) (m : ℚ) :
    ℕ → ℕ → List Call × LoopOutcome
  | 0, _ => ([], LoopOutcome.outOfFuel)
  | fuel+1, i =>
    match stepRes i with
    | Except.error e => ([Call.stepSimulation client], LoopOutcome.raised e)
    | Except.ok _ =>
      match sleepInterval m with
      | Except.error e => ([Call.stepSimulation client], LoopOutcome.raised e)
      | Except.ok d =>
        match sleepRes d with
        | Except.error e =>
          ([Call.stepSimulation client, Call.sleep d], LoopOutcome.raised e)
        | Except.ok _ =>
          match stepLoopAux stepRes client m fuel (i+1) with
          | (tr, out) => (Call.stepSimulation client :: Call.sleep d :: tr, out)

/-- Embedding of `SimulationManager._stepSimulation`
(simulation_manager.py:115-136): the whole loop is wrapped in
`try: ... except Exception: pass`, so whatever exception ends the loop is
swallowed and the task returns normally (`Except.ok ()`), never an error. -/
def _stepSimulation (stepRes : ℕ → Except PyErr Unit) (client : ℤ) (m : ℚ)
    (fuel : ℕ) : List Call × Except PyErr Unit :=
  ((stepLoopAux stepRes client m fuel 0).1, Except.ok ())

/-- The trace of `n` successful loop iterations: step, sleep, step, sleep, … -/
def iterTrace (client : ℤ) (d : ℚ) : ℕ → List Call
  | 0 => []
  | n+1 => Call.stepSimulation client :: Call.sleep d :: iterTrace client d n

/-- Number of `stepSimulation` calls in a trace. -/
def stepCalls (tr : List Call) : ℕ :=
  tr.countP fun c => match c with
    | Call.stepSimulation _ => true
    | _ => false

/-- Number of background stepping tasks started in a trace. -/
def startThreadCalls (tr : List Call) : ℕ :=
  tr.countP fun c => match c with
    | Call.startThread _ _ => true
    | _ => false

/-- Concrete all-succeeding engine, used to witness the theorems at concrete
inputs. -/
def okEngine : Engine where
  connectRes := fun _ => Except.ok 3
  callRes := fun _ => Except.ok ()
  loadRobotRes := fun _ _ _ => Except.ok ⟨7⟩
  dataPath := "pybullet_data"

/-- Concrete engine whose `setAdditionalSearchPath` call raises. -/
def spFailEngine : Engine where
  connectRes := fun _ => Except.ok 3
  callRes := fun c => match c with
    | Call.setAdditionalSearchPath _ => Except.error (PyErr.exception "cannot set path")
    | _ => Except.ok ()
  loadRobotRes := fun _ _ _ => Except.ok ⟨7⟩
  dataPath := "pybullet_data"

lemma sleepInterval_pos {m : ℚ} (hm : 0 < m) :
    sleepInterval m = Except.ok (1 / (240 * m)) := by
  have h240 : (240 : ℚ) * m ≠ 0 := ne_of_gt (mul_pos (by norm_num) hm)
  simp [sleepInterval, h240]

lemma sleepRes_pos {m : ℚ} (hm : 0 < m) :
    sleepRes (1 / (240 * m)) = Except.ok () := by
  have h240 : (0 : ℚ) < 240 * m := mul_pos (by norm_num) hm
  have hd : (0 : ℚ) ≤ 1 / (240 * m) := le_of_lt (div_pos zero_lt_one h240)
  unfold sleepRes
  rw [if_neg (not_lt.2 hd)]

lemma stepLoopAux_all_ok (stepRes : ℕ → Except PyErr Unit) (client : ℤ)
    (m d : ℚ) (hd : sleepInterval m = Except.ok d)
    (hdn : sleepRes d = Except.ok ()) :
    ∀ n i, (∀ j, j < n → stepRes (i + j) = Except.ok ()) →
      stepLoopAux stepRes client m n i = (iterTrace client d n, LoopOutcome.outOfFuel) := by
  intro n
  induction n with
  | zero => intro i _; rfl
  | succ n ih =>
    intro i hok
    have h0 : stepRes i = Except.ok () := by
      have := hok 0 (Nat.succ_pos n)
      simpa using this
    have hrec := ih (i + 1) (fun j hj => by
      have := hok (j + 1) (Nat.succ_lt_succ hj)
      have harith : i + (j + 1) = i + 1 + j := by omega
      rwa [harith] at this)
    simp [stepLoopAux, h0, hd, hdn, hrec, iterTrace]

lemma stepLoopAux_fail (stepRes : ℕ → Except PyErr Unit) (client : ℤ)
    (m d : ℚ) (e : PyErr) (hd : sleepInterval m = Except.ok d)
    (hdn : sleepRes d = Except.ok ()) :
    ∀ k fuel i, k < fuel → (∀ j, j < k → stepRes (i + j) = Except.ok ()) →
      stepRes (i + k) = Except.error e →
      stepLoopAux stepRes client m fuel i =
        (iterTrace client d k ++ [Call.stepSimulation client], LoopOutcome.raised e) := by
  intro k
  induction k with
  | zero =>
    intro fuel i hfuel _ hfail
    match fuel, hfuel with
    | f + 1, _ =>
      have h0 : stepRes i = Except.error e := by simpa using hfail
      simp [stepLoopAux, h0, iterTrace]
  | succ k ih =>
    intro fuel i hfuel hok hfail
    match fuel, hfuel with
    | f + 1, hfuel =>
      have h0 : stepRes i = Except.ok () := by
        have := hok 0 (Nat.succ_pos k)
        simpa using this
      have hrec := ih f (i + 1) (by omega)
        (fun j hj => by
          have := hok (j + 1) (Nat.succ_lt_succ hj)
          have harith : i + (j + 1) = i + 1 + j := by omega
          rwa [harith] at this)
        (by
          have harith : i + (k + 1) = i + 1 + k := by omega
          rwa [harith] at hfail)
      simp [stepLoopAux, h0, hd, hdn, hrec, iterTrace]

lemma stepCalls_iterTrace (client : ℤ) (d : ℚ) (n : ℕ) :
    stepCalls (iterTrace client d n) = n := by
  induction n with
  | zero => rfl
  | succ n ih => simp [iterTrace, stepCalls, List.countP_cons] at ih ⊢; omega

/-- Engine contract for a disconnected client, per the spec: once the owning
simulation is disconnected, every `stepSimulation` call on it raises.  `k` is
the index of the first step call issued after the disconnect. -/
def stepsFailFrom (stepRes : ℕ → Except PyErr Unit) (k : ℕ) : Prop :=
  ∀ i, k ≤ i → ∃ e, stepRes i = Except.error e

lemma stepLoop_disconnected (stepRes : ℕ → Except PyErr Unit) (client : ℤ)
    (m d : ℚ) (hd : sleepInterval m = Except.ok d)
    (hdn : sleepRes d = Except.ok ()) (K : ℕ)
    (hdis : stepsFailFrom stepRes K) :
    ∀ fuel i, K - i < fuel →
      (∃ e, (stepLoopAux stepRes client m fuel i).2 = LoopOutcome.raised e) ∧
      stepCalls (stepLoopAux stepRes client m fuel i).1 ≤ K - i + 1 := by
  intro fuel
  induction fuel with
  | zero => intro i h; omega
  | succ fuel ih =>
    intro i hlt
    match hstep : stepRes i with
    | Except.error e =>
      refine ⟨⟨e, ?_⟩, ?_⟩ <;> simp [stepLoopAux, hstep, stepCalls]
    | Except.ok _ =>
      have hiK : i < K := by
        by_contra hge
        obtain ⟨e, he⟩ := hdis i (by omega)
        rw [hstep] at he
        exact Except.noConfusion he
      have hrec := ih (i + 1) (by omega)
      rcases hsl : stepLoopAux stepRes client m fuel (i + 1) with ⟨tr, out⟩
      rw [hsl] at hrec
      have hstep1 : stepLoopAux stepRes client m (fuel + 1) i =
          (Call.stepSimulation client :: Call.sleep d :: tr, out) := by
        simp [stepLoopAux, hstep, hd, hdn, hsl]
      rw [hstep1]
      obtain ⟨⟨e, he⟩, hcount⟩ := hrec
      refine ⟨⟨e, he⟩, ?_⟩
      simp [stepCalls, List.countP_cons] at hcount ⊢
      omega

lemma stepCalls_append (a b : List Call) :
    stepCalls (a ++ b) = stepCalls a + stepCalls b := by
  simp [stepCalls, List.countP_append]

lemma stepCalls_single_step (client : ℤ) :
    stepCalls [Call.stepSimulation client] = 1 := rfl

/-- C1: each iteration of the headless stepping loop first advances the
engine by exactly one step for the bound client and then suspends for
exactly `1/(240*m)` seconds; while steps succeed the loop never exits (for
every fuel bound `n` it is still live: its only exit is a raised failure). -/
theorem headless_loop_steps_then_sleeps (stepRes : ℕ → Except PyErr Unit)
    (client : ℤ) (m : ℚ) (n : ℕ) (hm : 0 < m)
    (hok : ∀ i, i < n → stepRes i = Except.ok ()) :
    stepLoopAux stepRes client m n 0 =
      (iterTrace client (1 / (240 * m)) n, LoopOutcome.outOfFuel) :=
  stepLoopAux_all_ok stepRes client m _ (sleepInterval_pos hm) (sleepRes_pos hm)
    n 0 (fun j hj => by simpa using hok j hj)

theorem headless_loop_steps_then_sleeps_witness :
    stepLoopAux (fun _ => Except.ok ()) 5 1 2 0 =
      (iterTrace 5 (1 / (240 * 1)) 2, LoopOutcome.outOfFuel) :=
  headless_loop_steps_then_sleeps (fun _ => Except.ok ()) 5 1 2 (by norm_num)
    (fun _ _ => rfl)

/-- C2: a failure raised by the step call terminates the loop and the task
exits silently: the trace stops at the failing call (the failing step is
never retried, exactly `k+1` step calls are issued in total), the loop ends
with that failure, and `_stepSimulation` returns `Except.ok ()` — no error
is signalled to any caller. -/
theorem step_failure_silent_exit (stepRes : ℕ → Except PyErr Unit)
    (client : ℤ) (m : ℚ) (k fuel : ℕ) (e : PyErr) (hm : 0 < m) (hk : k < fuel)
    (hok : ∀ i, i < k → stepRes i = Except.ok ())
    (hfail : stepRes k = Except.error e) :
    _stepSimulation stepRes client m fuel =
      (iterTrace client (1 / (240 * m)) k ++ [Call.stepSimulation client],
        Except.ok ()) ∧
    (stepLoopAux stepRes client m fuel 0).2 = LoopOutcome.raised e ∧
    stepCalls (_stepSimulation stepRes client m fuel).1 = k + 1 := by
  have hloop := stepLoopAux_fail stepRes client m _ e (sleepInterval_pos hm)
    (sleepRes_pos hm) k fuel 0 hk (fun j hj => by simpa using hok j hj)
    (by simpa using hfail)
  refine ⟨?_, ?_, ?_⟩
  · simp [_stepSimulation, hloop]
  · rw [hloop]
  · show stepCalls (stepLoopAux stepRes client m fuel 0).1 = k + 1
    rw [hloop]
    show stepCalls (iterTrace client (1 / (240 * m)) k ++ [Call.stepSimulation client]) = k + 1
    rw [stepCalls_append, stepCalls_iterTrace, stepCalls_single_step]

/-- Concrete step oracle for witnesses: the first two step calls succeed,
every later one raises (the owning simulation was disconnected). -/
def wStepRes : ℕ → Except PyErr Unit := fun i =>
  if i < 2 then Except.ok () else Except.error (PyErr.exception "disconnected")

theorem step_failure_silent_exit_witness :
    _stepSimulation wStepRes 4 1 5 =
      (iterTrace 4 (1 / (240 * 1)) 2 ++ [Call.stepSimulation 4], Except.ok ()) ∧
    (stepLoopAux wStepRes 4 1 5 0).2 =
      LoopOutcome.raised (PyErr.exception "disconnected") ∧
    stepCalls (_stepSimulation wStepRes 4 1 5).1 = 2 + 1 :=
  step_failure_silent_exit wStepRes 4 1 2 5 (PyErr.exception "disconnected")
    (by norm_num) (by norm_num) (by intro i hi; interval_cases i <;> rfl) rfl

/-- C9: `frequencyMultiplier = 0` is not rejected anywhere: the first loop
iteration's `1/(240*0)` raises `ZeroDivisionError`, which the blanket
`except` swallows, so the task dies silently after exactly one step call
while `launchSimulation(gui=false, 0)` itself still succeeds, surfacing no
error at its interface. -/
theorem zero_multiplier_silent_death (stepRes : ℕ → Except PyErr Unit)
    (client : ℤ) (fuel : ℕ) (mgr : SimulationManager) (eng : Engine) (h : ℤ)
    (hfuel : 1 ≤ fuel) (hstep : stepRes 0 = Except.ok ())
    (hc : eng.connectRes Mode.DIRECT = Except.ok h)
    (h1 : eng.callRes (Call.startThread h 0) = Except.ok ())
    (h2 : eng.callRes (Call.setGravity 0 0 (-981/100) h) = Except.ok ()) :
    sleepInterval 0 = Except.error PyErr.zeroDivisionError ∧
    stepLoopAux stepRes client 0 fuel 0 =
      ([Call.stepSimulation client], LoopOutcome.raised PyErr.zeroDivisionError) ∧
    (_stepSimulation stepRes client 0 fuel).2 = Except.ok () ∧
    (launchSimulation mgr eng false 0).2 = Except.ok h := by
  have hsi : sleepInterval 0 = Except.error PyErr.zeroDivisionError := by
    simp [sleepInterval]
  refine ⟨hsi, ?_, rfl, ?_⟩
  · match fuel, hfuel with
    | f + 1, _ => simp [stepLoopAux, hstep, hsi]
  · simp [launchSimulation, bindCall, hc, h1, h2]

theorem zero_multiplier_silent_death_witness :
    sleepInterval 0 = Except.error PyErr.zeroDivisionError ∧
    stepLoopAux (fun _ => Except.ok ()) 4 0 3 0 =
      ([Call.stepSimulation 4], LoopOutcome.raised PyErr.zeroDivisionError) ∧
    (_stepSimulation (fun _ => Except.ok ()) 4 0 3).2 = Except.ok () ∧
    (launchSimulation SimulationManager.mk okEngine false 0).2 = Except.ok 3 :=
  zero_multiplier_silent_death (fun _ => Except.ok ()) 4 3 SimulationManager.mk
    okEngine 3 (by norm_num) rfl rfl rfl rfl

/-- C3: `launchSimulation(gui=false, m)` connects in `DIRECT` (headless)
mode, starts exactly one background stepping task bound to the new client
and to `m`, sets gravity to (0, 0, -9.81) scoped to that client, returns the
client id issued by `connect`, and performs no real-time-stepping and no
debug-preview configuration. -/
theorem launch_headless_contract (mgr : SimulationManager) (eng : Engine)
    (m : ℚ) (h : ℤ)
    (hc : eng.connectRes Mode.DIRECT = Except.ok h)
    (h1 : eng.callRes (Call.startThread h m) = Except.ok ())
    (h2 : eng.callRes (Call.setGravity 0 0 (-981/100) h) = Except.ok ()) :
    launchSimulation mgr eng false m =
      ([Call.connect Mode.DIRECT, Call.startThread h m,
        Call.setGravity 0 0 (-981/100) h], Except.ok h) ∧
    startThreadCalls (launchSimulation mgr eng false m).1 = 1 ∧
    (∀ v c, Call.setRealTimeSimulation v c ∉ (launchSimulation mgr eng false m).1) ∧
    (∀ f v c, Call.configureDebugVisualizer f v c ∉
      (launchSimulation mgr eng false m).1) := by
  have heq : launchSimulation mgr eng false m =
      ([Call.connect Mode.DIRECT, Call.startThread h m,
        Call.setGravity 0 0 (-981/100) h], Except.ok h) := by
    simp [launchSimulation, bindCall, hc, h1, h2]
  refine ⟨heq, ?_, ?_, ?_⟩
  · rw [heq]
    simp [startThreadCalls, List.countP_cons]
  · intro v c
    rw [heq]
    simp
  · intro f v c
    rw [heq]
    simp

theorem launch_headless_contract_witness :
    launchSimulation SimulationManager.mk okEngine false 2 =
      ([Call.connect Mode.DIRECT, Call.startThread 3 2,
        Call.setGravity 0 0 (-981/100) 3], Except.ok 3) ∧
    startThreadCalls (launchSimulation SimulationManager.mk okEngine false 2).1 = 1 ∧
    Call.setRealTimeSimulation 1 9 ∉
      (launchSimulation SimulationManager.mk okEngine false 2).1 ∧
    Call.configureDebugVisualizer CovFlag.RGB 0 9 ∉
      (launchSimulation SimulationManager.mk okEngine false 2).1 := by
  have h := launch_headless_contract SimulationManager.mk okEngine 2 3 rfl rfl rfl
  exact ⟨h.1, h.2.1, h.2.2.1 1 9, h.2.2.2 CovFlag.RGB 0 9⟩

/-- C4: `launchSimulation(gui=true)` connects in `GUI` (interactive) mode,
enables real-time stepping on the new client, disables the RGB, depth and
segmentation debug previews on it, sets gravity to (0, 0, -9.81) scoped to
it, returns the client id, and starts no background stepping task. -/
theorem launch_gui_contract (mgr : SimulationManager) (eng : Engine)
    (m : ℚ) (h : ℤ)
    (hc : eng.connectRes Mode.GUI = Except.ok h)
    (h1 : eng.callRes (Call.setRealTimeSimulation 1 h) = Except.ok ())
    (h2 : eng.callRes (Call.configureDebugVisualizer CovFlag.RGB 0 h) = Except.ok ())
    (h3 : eng.callRes (Call.configureDebugVisualizer CovFlag.DEPTH 0 h) = Except.ok ())
    (h4 : eng.callRes (Call.configureDebugVisualizer CovFlag.SEGMENTATION 0 h) = Except.ok ())
    (h5 : eng.callRes (Call.setGravity 0 0 (-981/100) h) = Except.ok ()) :
    launchSimulation mgr eng true m =
      ([Call.connect Mode.GUI, Call.setRealTimeSimulation 1 h,
        Call.configureDebugVisualizer CovFlag.RGB 0 h,
        Call.configureDebugVisualizer CovFlag.DEPTH 0 h,
        Call.configureDebugVisualizer CovFlag.SEGMENTATION 0 h,
        Call.setGravity 0 0 (-981/100) h], Except.ok h) ∧
    startThreadCalls (launchSimulation mgr eng true m).1 = 0 ∧
    (∀ pc mult, Call.startThread pc mult ∉ (launchSimulation mgr eng true m).1) := by
  have heq : launchSimulation mgr eng true m =
      ([Call.connect Mode.GUI, Call.setRealTimeSimulation 1 h,
        Call.configureDebugVisualizer CovFlag.RGB 0 h,
        Call.configureDebugVisualizer CovFlag.DEPTH 0 h,
        Call.configureDebugVisualizer CovFlag.SEGMENTATION 0 h,
        Call.setGravity 0 0 (-981/100) h], Except.ok h) := by
    simp [launchSimulation, bindCall, hc, h1, h2, h3, h4, h5]
  refine ⟨heq, ?_, ?_⟩
  · rw [heq]
    simp [startThreadCalls, List.countP_cons]
  · intro pc mult
    rw [heq]
    simp

theorem launch_gui_contract_witness :
    launchSimulation SimulationManager.mk okEngine true 1 =
      ([Call.connect Mode.GUI, Call.setRealTimeSimulation 1 3,
        Call.configureDebugVisualizer CovFlag.RGB 0 3,
        Call.configureDebugVisualizer CovFlag.DEPTH 0 3,
        Call.configureDebugVisualizer CovFlag.SEGMENTATION 0 3,
        Call.setGravity 0 0 (-981/100) 3], Except.ok 3) ∧
    startThreadCalls (launchSimulation SimulationManager.mk okEngine true 1).1 = 0 ∧
    Call.startThread 3 1 ∉ (launchSimulation SimulationManager.mk okEngine true 1).1 := by
  have h := launch_gui_contract SimulationManager.mk okEngine 1 3 rfl rfl rfl rfl rfl rfl
  exact ⟨h.1, h.2.1, h.2.2 3 1⟩

/-- C5: `spawnPepper` with `spawn_ground_plane=true` sets the bundled data
search path and loads the standard ground-plane asset into the client before
the robot is loaded; in all cases robot construction is delegated to the
robot-model loader with exactly `translation`, `quaternion` and the client
id, and the loader's robot handle is returned. -/
theorem spawn_pepper_contract (mgr : SimulationManager) (eng : Engine)
    (physics_client : ℤ) (t q : List ℚ)
    (hsp : eng.callRes (Call.setAdditionalSearchPath eng.dataPath) = Except.ok ())
    (hgp : eng.callRes (Call.loadMJCF "mjcf/ground_plane.xml" physics_client) =
      Except.ok ()) :
    spawnPepper mgr eng physics_client t q true =
      ([Call.setAdditionalSearchPath eng.dataPath,
        Call.loadMJCF "mjcf/ground_plane.xml" physics_client,
        Call.loadRobot t q physics_client],
        eng.loadRobotRes t q physics_client) ∧
    spawnPepper mgr eng physics_client t q false =
      ([Call.loadRobot t q physics_client],
        eng.loadRobotRes t q physics_client) := by
  constructor
  · simp [spawnPepper, bindCall, hsp, hgp]
  · simp [spawnPepper]

theorem spawn_pepper_contract_witness :
    spawnPepper SimulationManager.mk okEngine 3 [0, 0, 0] [0, 0, 0, 1] true =
      ([Call.setAdditionalSearchPath okEngine.dataPath,
        Call.loadMJCF "mjcf/ground_plane.xml" 3,
        Call.loadRobot [0, 0, 0] [0, 0, 0, 1] 3],
        okEngine.loadRobotRes [0, 0, 0] [0, 0, 0, 1] 3) ∧
    spawnPepper SimulationManager.mk okEngine 3 [0, 0, 0] [0, 0, 0, 1] false =
      ([Call.loadRobot [0, 0, 0] [0, 0, 0, 1] 3],
        okEngine.loadRobotRes [0, 0, 0] [0, 0, 0, 1] 3) :=
  spawn_pepper_contract SimulationManager.mk okEngine 3 [0, 0, 0] [0, 0, 0, 1]
    rfl rfl

/-- Concrete engine whose `connect` raises. -/
def connectFailEngine : Engine where
  connectRes := fun _ => Except.error (PyErr.exception "connect failed")
  callRes := fun _ => Except.ok ()
  loadRobotRes := fun _ _ _ => Except.ok ⟨7⟩
  dataPath := "pybullet_data"

/-- Concrete engine whose `setRealTimeSimulation` raises. -/
def rtFailEngine : Engine where
  connectRes := fun _ => Except.ok 3
  callRes := fun c => match c with
    | Call.setRealTimeSimulation _ _ =>
      Except.error (PyErr.exception "cannot enable real-time")
    | _ => Except.ok ()
  loadRobotRes := fun _ _ _ => Except.ok ⟨7⟩
  dataPath := "pybullet_data"

/-- Concrete engine whose depth-preview `configureDebugVisualizer` raises. -/
def previewFailEngine : Engine where
  connectRes := fun _ => Except.ok 3
  callRes := fun c => match c with
    | Call.configureDebugVisualizer CovFlag.DEPTH _ _ =>
      Except.error (PyErr.exception "cannot configure preview")
    | _ => Except.ok ()
  loadRobotRes := fun _ _ _ => Except.ok ⟨7⟩
  dataPath := "pybullet_data"

/-- Concrete engine whose `setGravity` raises. -/
def gravityFailEngine : Engine where
  connectRes := fun _ => Except.ok 3
  callRes := fun c => match c with
    | Call.setGravity _ _ _ _ =>
      Except.error (PyErr.exception "cannot set gravity")
    | _ => Except.ok ()
  loadRobotRes := fun _ _ _ => Except.ok ⟨7⟩
  dataPath := "pybullet_data"

/-- Concrete engine whose thread start raises. -/
def threadFailEngine : Engine where
  connectRes := fun _ => Except.ok 3
  callRes := fun c => match c with
    | Call.startThread _ _ =>
      Except.error (PyErr.exception "cannot start thread")
    | _ => Except.ok ()
  loadRobotRes := fun _ _ _ => Except.ok ⟨7⟩
  dataPath := "pybullet_data"

/-- Concrete engine whose ground-plane `loadMJCF` raises. -/
def mjcfFailEngine : Engine where
  connectRes := fun _ => Except.ok 3
  callRes := fun c => match c with
    | Call.loadMJCF _ _ =>
      Except.error (PyErr.exception "cannot load ground plane")
    | _ => Except.ok ()
  loadRobotRes := fun _ _ _ => Except.ok ⟨7⟩
  dataPath := "pybullet_data"

/-- Concrete engine whose robot loader raises. -/
def robotFailEngine : Engine where
  connectRes := fun _ => Except.ok 3
  callRes := fun _ => Except.ok ()
  loadRobotRes := fun _ _ _ => Except.error (PyErr.exception "loader failed")
  dataPath := "pybullet_data"

/-- C6: foreground operations catch, transform and retry nothing: every
failure raised by the engine or the loader during any of the four
operations propagates to the caller verbatim.  `resetSimulation` and
`stopSimulation` issue their single engine call exactly once and their
outcome is exactly the engine's answer (so a raised engine exception
propagates unmodified, and success carries no value).  In
`launchSimulation`, whichever of its issued calls fails first — `connect`,
`setRealTimeSimulation`, any of the three `configureDebugVisualizer` calls
or `setGravity` in GUI mode; `connect`, the thread start or `setGravity` in
headless mode — its error is the operation's outcome.  In `spawnPepper`, a
failure of `setAdditionalSearchPath` or of the ground-plane `loadMJCF` is
the outcome, and once those succeed (or are skipped) the outcome is exactly
the robot loader's answer, error or robot handle alike. -/
theorem foreground_error_propagation (mgr : SimulationManager) (eng : Engine)
    (pc : ℤ) (t q : List ℚ) (m : ℚ) (h : ℤ) (e : PyErr) :
    resetSimulation mgr eng pc =
      ([Call.resetSimulation pc], eng.callRes (Call.resetSimulation pc)) ∧
    stopSimulation mgr eng pc =
      ([Call.disconnect pc], eng.callRes (Call.disconnect pc)) ∧
    (eng.connectRes Mode.GUI = Except.error e →
      (launchSimulation mgr eng true m).2 = Except.error e) ∧
    (eng.connectRes Mode.GUI = Except.ok h →
      eng.callRes (Call.setRealTimeSimulation 1 h) = Except.error e →
      (launchSimulation mgr eng true m).2 = Except.error e) ∧
    (eng.connectRes Mode.GUI = Except.ok h →
      eng.callRes (Call.setRealTimeSimulation 1 h) = Except.ok () →
      eng.callRes (Call.configureDebugVisualizer CovFlag.RGB 0 h) =
        Except.error e →
      (launchSimulation mgr eng true m).2 = Except.error e) ∧
    (eng.connectRes Mode.GUI = Except.ok h →
      eng.callRes (Call.setRealTimeSimulation 1 h) = Except.ok () →
      eng.callRes (Call.configureDebugVisualizer CovFlag.RGB 0 h) =
        Except.ok () →
      eng.callRes (Call.configureDebugVisualizer CovFlag.DEPTH 0 h) =
        Except.error e →
      (launchSimulation mgr eng true m).2 = Except.error e) ∧
    (eng.connectRes Mode.GUI = Except.ok h →
      eng.callRes (Call.setRealTimeSimulation 1 h) = Except.ok () →
      eng.callRes (Call.configureDebugVisualizer CovFlag.RGB 0 h) =
        Except.ok () →
      eng.callRes (Call.configureDebugVisualizer CovFlag.DEPTH 0 h) =
        Except.ok () →
      eng.callRes (Call.configureDebugVisualizer CovFlag.SEGMENTATION 0 h) =
        Except.error e →
      (launchSimulation mgr eng true m).2 = Except.error e) ∧
    (eng.connectRes Mode.GUI = Except.ok h →
      eng.callRes (Call.setRealTimeSimulation 1 h) = Except.ok () →
      eng.callRes (Call.configureDebugVisualizer CovFlag.RGB 0 h) =
        Except.ok () →
      eng.callRes (Call.configureDebugVisualizer CovFlag.DEPTH 0 h) =
        Except.ok () →
      eng.callRes (Call.configureDebugVisualizer CovFlag.SEGMENTATION 0 h) =
        Except.ok () →
      eng.callRes (Call.setGravity 0 0 (-981/100) h) = Except.error e →
      (launchSimulation mgr eng true m).2 = Except.error e) ∧
    (eng.connectRes Mode.DIRECT = Except.error e →
      (launchSimulation mgr eng false m).2 = Except.error e) ∧
    (eng.connectRes Mode.DIRECT = Except.ok h →
      eng.callRes (Call.startThread h m) = Except.error e →
      (launchSimulation mgr eng false m).2 = Except.error e) ∧
    (eng.connectRes Mode.DIRECT = Except.ok h →
      eng.callRes (Call.startThread h m) = Except.ok () →
      eng.callRes (Call.setGravity 0 0 (-981/100) h) = Except.error e →
      (launchSimulation mgr eng false m).2 = Except.error e) ∧
    (eng.callRes (Call.setAdditionalSearchPath eng.dataPath) = Except.error e →
      (spawnPepper mgr eng pc t q true).2 = Except.error e) ∧
    (eng.callRes (Call.setAdditionalSearchPath eng.dataPath) = Except.ok () →
      eng.callRes (Call.loadMJCF "mjcf/ground_plane.xml" pc) = Except.error e →
      (spawnPepper mgr eng pc t q true).2 = Except.error e) ∧
    (eng.callRes (Call.setAdditionalSearchPath eng.dataPath) = Except.ok () →
      eng.callRes (Call.loadMJCF "mjcf/ground_plane.xml" pc) = Except.ok () →
      (spawnPepper mgr eng pc t q true).2 = eng.loadRobotRes t q pc) ∧
    (spawnPepper mgr eng pc t q false).2 = eng.loadRobotRes t q pc := by
  refine ⟨rfl, rfl, ?_, ?_, ?_, ?_, ?_, ?_, ?_, ?_, ?_, ?_, ?_, ?_, rfl⟩
  · intro hc
    simp [launchSimulation, hc]
  · intro hc h1
    simp [launchSimulation, bindCall, hc, h1]
  · intro hc h1 h2
    simp [launchSimulation, bindCall, hc, h1, h2]
  · intro hc h1 h2 h3
    simp [launchSimulation, bindCall, hc, h1, h2, h3]
  · intro hc h1 h2 h3 h4
    simp [launchSimulation, bindCall, hc, h1, h2, h3, h4]
  · intro hc h1 h2 h3 h4 h5
    simp [launchSimulation, bindCall, hc, h1, h2, h3, h4, h5]
  · intro hc
    simp [launchSimulation, hc]
  · intro hc h1
    simp [launchSimulation, bindCall, hc, h1]
  · intro hc h1 h2
    simp [launchSimulation, bindCall, hc, h1, h2]
  · intro hsp
    simp [spawnPepper, bindCall, hsp]
  · intro hsp hgp
    simp [spawnPepper, bindCall, hsp, hgp]
  · intro hsp hgp
    simp [spawnPepper, bindCall, hsp, hgp]

theorem foreground_error_propagation_witness :
    resetSimulation SimulationManager.mk okEngine 3 =
      ([Call.resetSimulation 3], okEngine.callRes (Call.resetSimulation 3)) ∧
    stopSimulation SimulationManager.mk okEngine 3 =
      ([Call.disconnect 3], okEngine.callRes (Call.disconnect 3)) ∧
    (launchSimulation SimulationManager.mk connectFailEngine true 1).2 =
      Except.error (PyErr.exception "connect failed") ∧
    (launchSimulation SimulationManager.mk rtFailEngine true 1).2 =
      Except.error (PyErr.exception "cannot enable real-time") ∧
    (launchSimulation SimulationManager.mk previewFailEngine true 1).2 =
      Except.error (PyErr.exception "cannot configure preview") ∧
    (launchSimulation SimulationManager.mk gravityFailEngine true 1).2 =
      Except.error (PyErr.exception "cannot set gravity") ∧
    (launchSimulation SimulationManager.mk connectFailEngine false 1).2 =
      Except.error (PyErr.exception "connect failed") ∧
    (launchSimulation SimulationManager.mk threadFailEngine false 1).2 =
      Except.error (PyErr.exception "cannot start thread") ∧
    (launchSimulation SimulationManager.mk gravityFailEngine false 1).2 =
      Except.error (PyErr.exception "cannot set gravity") ∧
    (spawnPepper SimulationManager.mk spFailEngine 3 [0, 0, 0] [0, 0, 0, 1] true).2 =
      Except.error (PyErr.exception "cannot set path") ∧
    (spawnPepper SimulationManager.mk mjcfFailEngine 3 [0, 0, 0] [0, 0, 0, 1] true).2 =
      Except.error (PyErr.exception "cannot load ground plane") ∧
    (spawnPepper SimulationManager.mk robotFailEngine 3 [0, 0, 0] [0, 0, 0, 1] true).2 =
      robotFailEngine.loadRobotRes [0, 0, 0] [0, 0, 0, 1] 3 ∧
    (spawnPepper SimulationManager.mk robotFailEngine 3 [0, 0, 0] [0, 0, 0, 1] false).2 =
      robotFailEngine.loadRobotRes [0, 0, 0] [0, 0, 0, 1] 3 := by
  have hok := foreground_error_propagation SimulationManager.mk okEngine 3
    [0, 0, 0] [0, 0, 0, 1] 1 3 PyErr.zeroDivisionError
  have hcf := foreground_error_propagation SimulationManager.mk connectFailEngine 3
    [0, 0, 0] [0, 0, 0, 1] 1 3 (PyErr.exception "connect failed")
  have hrt := foreground_error_propagation SimulationManager.mk rtFailEngine 3
    [0, 0, 0] [0, 0, 0, 1] 1 3 (PyErr.exception "cannot enable real-time")
  have hpv := foreground_error_propagation SimulationManager.mk previewFailEngine 3
    [0, 0, 0] [0, 0, 0, 1] 1 3 (PyErr.exception "cannot configure preview")
  have hgr := foreground_error_propagation SimulationManager.mk gravityFailEngine 3
    [0, 0, 0] [0, 0, 0, 1] 1 3 (PyErr.exception "cannot set gravity")
  have hth := foreground_error_propagation SimulationManager.mk threadFailEngine 3
    [0, 0, 0] [0, 0, 0, 1] 1 3 (PyErr.exception "cannot start thread")
  have hsp := foreground_error_propagation SimulationManager.mk spFailEngine 3
    [0, 0, 0] [0, 0, 0, 1] 1 3 (PyErr.exception "cannot set path")
  have hmj := foreground_error_propagation SimulationManager.mk mjcfFailEngine 3
    [0, 0, 0] [0, 0, 0, 1] 1 3 (PyErr.exception "cannot load ground plane")
  have hrb := foreground_error_propagation SimulationManager.mk robotFailEngine 3
    [0, 0, 0] [0, 0, 0, 1] 1 3 (PyErr.exception "loader failed")
  exact ⟨hok.1, hok.2.1,
    hcf.2.2.1 rfl,
    hrt.2.2.2.1 rfl rfl,
    hpv.2.2.2.2.2.1 rfl rfl rfl rfl,
    hgr.2.2.2.2.2.2.2.1 rfl rfl rfl rfl rfl rfl,
    hcf.2.2.2.2.2.2.2.2.1 rfl,
    hth.2.2.2.2.2.2.2.2.2.1 rfl rfl,
    hgr.2.2.2.2.2.2.2.2.2.2.1 rfl rfl rfl,
    hsp.2.2.2.2.2.2.2.2.2.2.2.1 rfl,
    hmj.2.2.2.2.2.2.2.2.2.2.2.2.1 rfl rfl,
    hrb.2.2.2.2.2.2.2.2.2.2.2.2.2.1 rfl rfl,
    hrb.2.2.2.2.2.2.2.2.2.2.2.2.2.2⟩

/-- C7: once a client is disconnected its step calls fail (spec §4.2/§5:
the engine contract, `stepsFailFrom`), so the background task performs no
further successful step: it issues at most one more step call (the failing
one), its loop ends with a raised failure, and the task exits silently with
no error — no explicit cancellation signal exists, and `stopSimulation`
itself issues nothing but the single engine disconnect. -/
theorem stop_disconnect_kills_task (stepRes : ℕ → Except PyErr Unit)
    (client : ℤ) (m : ℚ) (k fuel : ℕ) (mgr : SimulationManager) (eng : Engine)
    (pc : ℤ) (hm : 0 < m) (hdis : stepsFailFrom stepRes k) (hfuel : k < fuel) :
    (stopSimulation mgr eng pc).1 = [Call.disconnect pc] ∧
    (∃ e, (stepLoopAux stepRes client m fuel 0).2 = LoopOutcome.raised e) ∧
    (_stepSimulation stepRes client m fuel).2 = Except.ok () ∧
    stepCalls (_stepSimulation stepRes client m fuel).1 ≤ k + 1 := by
  have h := stepLoop_disconnected stepRes client m _ (sleepInterval_pos hm)
    (sleepRes_pos hm) k hdis fuel 0 (by omega)
  exact ⟨rfl, h.1, rfl, by simpa using h.2⟩

theorem stop_disconnect_kills_task_witness :
    (stopSimulation SimulationManager.mk okEngine 3).1 = [Call.disconnect 3] ∧
    (∃ e, (stepLoopAux wStepRes 4 1 5 0).2 = LoopOutcome.raised e) ∧
    (_stepSimulation wStepRes 4 1 5).2 = Except.ok () ∧
    stepCalls (_stepSimulation wStepRes 4 1 5).1 ≤ 2 + 1 :=
  stop_disconnect_kills_task wStepRes 4 1 2 5 SimulationManager.mk okEngine 3
    (by norm_num)
    (fun i hi => ⟨PyErr.exception "disconnected", by
      unfold wStepRes
      rw [if_neg (by omega)]⟩)
    (by norm_num)

/-- C8: the manager is stateless: its constructor establishes no state (the
object type has a single value, so nothing can be retained across calls) and
every public operation is independent of the manager object it is invoked
on. -/
theorem manager_is_stateless :
    (∀ a b : SimulationManager, a = b) ∧
    (∀ (a b : SimulationManager) (eng : Engine) (gui : Bool) (m : ℚ),
      launchSimulation a eng gui m = launchSimulation b eng gui m) ∧
    (∀ (a b : SimulationManager) (eng : Engine) (pc : ℤ),
      resetSimulation a eng pc = resetSimulation b eng pc) ∧
    (∀ (a b : SimulationManager) (eng : Engine) (pc : ℤ),
      stopSimulation a eng pc = stopSimulation b eng pc) ∧
    (∀ (a b : SimulationManager) (eng : Engine) (pc : ℤ) (t q : List ℚ)
      (g : Bool), spawnPepper a eng pc t q g = spawnPepper b eng pc t q g) :=
  ⟨fun a b => by cases a; cases b; rfl,
    fun _ _ _ _ _ => rfl, fun _ _ _ _ => rfl, fun _ _ _ _ => rfl,
    fun _ _ _ _ _ _ _ => rfl⟩

/-- C10: if, during `spawnPepper` with `spawn_ground_plane=true`, the
search-path configuration or the ground-plane load raises, the exception
propagates before the robot loader is invoked: no `loadRobot` call appears
in the trace and the operation's outcome is that error, not a robot
handle. -/
theorem ground_plane_failure_blocks_robot (mgr : SimulationManager)
    (eng : Engine) (pc : ℤ) (t q : List ℚ) (e : PyErr)
    (hfail : eng.callRes (Call.setAdditionalSearchPath eng.dataPath) =
        Except.error e ∨
      (eng.callRes (Call.setAdditionalSearchPath eng.dataPath) = Except.ok () ∧
        eng.callRes (Call.loadMJCF "mjcf/ground_plane.xml" pc) =
          Except.error e)) :
    (spawnPepper mgr eng pc t q true).2 = Except.error e ∧
    ∀ t' q' c, Call.loadRobot t' q' c ∉ (spawnPepper mgr eng pc t q true).1 := by
  rcases hfail with hf | ⟨hok, hf⟩
  · constructor
    · simp [spawnPepper, bindCall, hf]
    · intro t' q' c
      simp [spawnPepper, bindCall, hf]
  · constructor
    · simp [spawnPepper, bindCall, hok, hf]
    · intro t' q' c
      simp [spawnPepper, bindCall, hok, hf]

theorem ground_plane_failure_blocks_robot_witness :
    (spawnPepper SimulationManager.mk spFailEngine 3 [0, 0, 0] [0, 0, 0, 1] true).2 =
      Except.error (PyErr.exception "cannot set path") ∧
    Call.loadRobot [0, 0, 0] [0, 0, 0, 1] 3 ∉
      (spawnPepper SimulationManager.mk spFailEngine 3 [0, 0, 0] [0, 0, 0, 1] true).1 := by
  have h := ground_plane_failure_blocks_robot SimulationManager.mk spFailEngine 3
    [0, 0, 0] [0, 0, 0, 1] (PyErr.exception "cannot set path") (Or.inl rfl)
  exact ⟨h.1, h.2 [0, 0, 0] [0, 0, 0, 1] 3⟩
